import Mathlib

/-!
# Flight booking simulator with dynamic pricing — verification development

Shallow embedding of the backend of the flight-booking repository:
the pricing engine (`pricing_engine.py`), the refund policy
(`utils.calculate_refund_percentage`), and the transactional booking
ledger (`backend.create_booking` / `backend.cancel_booking`).

Conventions of the embedding:
* Python `float` arithmetic is modelled over `ℚ` (decimal semantics);
  Python's `round(x, 2)` (round-half-to-even on the scaled value) is
  `round2`.
* SQLite integer columns are modelled as `ℤ`.
* `datetime.strptime(s, "%Y-%m-%d %H:%M:%S")` is modelled by `strptime`,
  which returns `none` exactly when Python raises `ValueError`
  (malformed text, out-of-range fields, invalid calendar dates).
* The ambient wall clock `datetime.now()` is an explicit parameter
  `now : ℤ`, a timestamp in seconds on the same axis as `toSeconds`.
* Code that can raise returns `Option`/`Except`; an SQL transaction
  that raises is rolled back, so the wrappers `run_create` / `run_cancel`
  return the pre-state unchanged on error.
-/

namespace FlightBooking

/-! ## Date-time parsing (`datetime.strptime` with format "%Y-%m-%d %H:%M:%S") -/

/-- A parsed calendar date-time, as produced by `datetime.strptime`. -/
structure DateTime where
  year : ℕ
  month : ℕ
  day : ℕ
  hour : ℕ
  minute : ℕ
  second : ℕ
deriving DecidableEq, Repr

/-- Decimal digit value of a character, `none` when not a digit. -/
def digitVal (c : Char) : Option ℕ :=
  if c.isDigit then some (c.toNat - 48) else none

/-- Greedily read one or two decimal digits (the `%m`, `%d`, `%H`, `%M`,
`%S` directives match one or two digits). -/
def takeDigits2 : List Char → Option (ℕ × List Char)
  | [] => none
  | c1 :: rest =>
    match digitVal c1 with
    | none => none
    | some d1 =>
      match rest with
      | c2 :: rest2 =>
        match digitVal c2 with
        | some d2 => some (10 * d1 + d2, rest2)
        | none => some (d1, rest)
      | [] => some (d1, [])

/-- Read exactly four decimal digits (the `%Y` directive). -/
def takeDigits4 (cs : List Char) : Option (ℕ × List Char) :=
  match cs with
  | a :: b :: c :: d :: rest =>
    match digitVal a, digitVal b, digitVal c, digitVal d with
    | some da, some db, some dc, some dd =>
      some (1000 * da + 100 * db + 10 * dc + dd, rest)
    | _, _, _, _ => none
  | _ => none

/-- Expect one literal character. -/
def expectChar (c : Char) : List Char → Option (List Char)
  | [] => none
  | c1 :: rest => if c1 = c then some rest else none

/-- A literal space in a strptime format matches one or more whitespace
characters. -/
def skipSpaces1 : List Char → Option (List Char)
  | [] => none
  | c1 :: rest =>
    if c1.isWhitespace then
      some (match rest with
        | [] => []
        | c2 :: rest2 =>
          if c2.isWhitespace then
            match skipSpaces1 (c2 :: rest2) with
            | some r => r
            | none => c2 :: rest2
          else c2 :: rest2)
    else none

/-- Gregorian leap-year test. -/
def isLeapYear (y : ℕ) : Bool :=
  (y % 4 == 0 && y % 100 != 0) || y % 400 == 0

/-- Number of days in a month of a given year. -/
def daysInMonth (y m : ℕ) : ℕ :=
  if m = 2 then (if isLeapYear y then 29 else 28)
  else if m = 4 ∨ m = 6 ∨ m = 9 ∨ m = 11 then 30
  else 31

/-- Model of `datetime.strptime(s, "%Y-%m-%d %H:%M:%S")`: `none` exactly
when Python raises `ValueError` (bad shape, trailing text, field out of
range, or an invalid calendar date). -/
def strptime (s : String) : Option DateTime := do
  let cs0 := s.toList
  let (y, cs1) ← takeDigits4 cs0
  let cs2 ← expectChar '-' cs1
  let (mo, cs3) ← takeDigits2 cs2
  let cs4 ← expectChar '-' cs3
  let (d, cs5) ← takeDigits2 cs4
  let cs6 ← skipSpaces1 cs5
  let (h, cs7) ← takeDigits2 cs6
  let cs8 ← expectChar ':' cs7
  let (mi, cs9) ← takeDigits2 cs8
  let cs10 ← expectChar ':' cs9
  let (sec, cs11) ← takeDigits2 cs10
  if cs11 = [] ∧ 1 ≤ y ∧ 1 ≤ mo ∧ mo ≤ 12 ∧ 1 ≤ d ∧ d ≤ daysInMonth y mo
      ∧ h ≤ 23 ∧ mi ≤ 59 ∧ sec ≤ 59 then
    some ⟨y, mo, d, h, mi, sec⟩
  else
    none

/-- Days of the year strictly before month `m`. -/
def daysBeforeMonth (y m : ℕ) : ℕ :=
  (List.range (m - 1)).foldl (fun acc i => acc + daysInMonth y (i + 1)) 0

/-- Complete Gregorian leap days among years `1..n`. -/
def leapCount (n : ℕ) : ℕ :=
  n / 4 - n / 100 + n / 400

/-- Days elapsed since 0001-01-01 (proleptic Gregorian calendar, the
calendar used by Python's `datetime`). -/
def daysFromYearOne (dt : DateTime) : ℕ :=
  365 * (dt.year - 1) + leapCount (dt.year - 1)
    + daysBeforeMonth dt.year dt.month + (dt.day - 1)

/-- Timestamp in seconds on the axis where 0001-01-01 00:00:00 is 0;
differences of `toSeconds` agree with Python's
`(d1 - d2).total_seconds()`. -/
def toSeconds (dt : DateTime) : ℤ :=
  86400 * (daysFromYearOne dt : ℤ) + 3600 * (dt.hour : ℤ)
    + 60 * (dt.minute : ℤ) + (dt.second : ℤ)

/-! ## Rounding (Python's `round(x, 2)`) -/

/-- Round a rational to the nearest integer, ties to even (Python's
`round` on floats uses round-half-to-even). -/
def roundHalfEven (q : ℚ) : ℤ :=
  let f := ⌊q⌋
  let r := q - (f : ℚ)
  if r < 1 / 2 then f
  else if 1 / 2 < r then f + 1
  else if f % 2 = 0 then f else f + 1

/-- Model of Python's `round(x, 2)`. -/
def round2 (q : ℚ) : ℚ :=
  (roundHalfEven (100 * q) : ℚ) / 100

/-! ## Pricing engine (`pricing_engine.py`) -/

/-- `calculate_occupancy_multiplier` from `pricing_engine.py`. -/
def calculate_occupancy_multiplier (occupancy_ratio : ℚ) : ℚ :=
  if occupancy_ratio ≥ 8 / 10 then 15 / 10
  else if occupancy_ratio ≥ 6 / 10 then 135 / 100
  else if occupancy_ratio ≥ 4 / 10 then 115 / 100
  else 1

/-- Fractional days between a parsed departure and the clock, i.e.
`(departure_date - now).total_seconds() / (24 * 3600)`. -/
def daysUntil (dt : DateTime) (now : ℤ) : ℚ :=
  ((toSeconds dt - now : ℤ) : ℚ) / (24 * 3600)

/-- The stepped time-multiplier curve of `calculate_time_multiplier`,
as a function of fractional days until departure. -/
def timeMultiplierOfDays (days_until_departure : ℚ) : ℚ :=
  if days_until_departure ≤ 1 then 2
  else if days_until_departure ≤ 3 then 18 / 10
  else if days_until_departure ≤ 7 then 15 / 10
  else if days_until_departure ≤ 14 then 125 / 100
  else if days_until_departure ≤ 30 then 11 / 10
  else 1

/-- `calculate_time_multiplier` from `pricing_engine.py`: parses the
departure string (`none` models the `ValueError` it raises on a bad
string) and applies the stepped curve. -/
def calculate_time_multiplier (departure_time : String) (now : ℤ) : Option ℚ :=
  (strptime departure_time).map (fun dt => timeMultiplierOfDays (daysUntil dt now))

/-- ASCII lower-casing of a string, character by character (model of
Python's `str.lower()` on the ASCII demand-level tokens). -/
def toLowerStr (s : String) : String :=
  ⟨s.data.map Char.toLower⟩

/-- `calculate_demand_multiplier` from `pricing_engine.py`
(case-insensitive comparison). -/
def calculate_demand_multiplier (demand_level : String) : ℚ :=
  let level := toLowerStr demand_level
  if level = "high" then 14 / 10
  else if level = "low" then 8 / 10
  else 1

/-- The occupancy-ratio computation
`(total_seats - available_seats) / total_seats`; `none` models the
`ZeroDivisionError` Python raises when `total_seats == 0`. -/
def occupancyRatio (total_seats available_seats : ℤ) : Option ℚ :=
  if total_seats = 0 then none
  else some (((total_seats - available_seats : ℤ) : ℚ) / (total_seats : ℚ))

/-- `calculate_dynamic_price` from `pricing_engine.py`. `none` models an
uncaught exception (division by zero when `total_seats == 0`, or a
`ValueError` from parsing `departure_time`). -/
def calculate_dynamic_price (base_price seat_class_multiplier : ℚ)
    (available_seats total_seats : ℤ) (departure_time : String)
    (demand_level : String) (now : ℤ) : Option ℚ :=
  let price := base_price * seat_class_multiplier
  match occupancyRatio total_seats available_seats with
  | none => none
  | some occupancy_ratio =>
    let occupancy_multiplier := calculate_occupancy_multiplier occupancy_ratio
    match calculate_time_multiplier departure_time now with
    | none => none
    | some time_multiplier =>
      let demand_multiplier := calculate_demand_multiplier demand_level
      some (round2 (price * occupancy_multiplier * time_multiplier * demand_multiplier))

/-! ## Refund policy (`utils.calculate_refund_percentage`) -/

/-- Hours between a parsed departure and the clock, i.e.
`(departure - now).total_seconds() / 3600`. -/
def hoursUntil (dt : DateTime) (now : ℤ) : ℚ :=
  ((toSeconds dt - now : ℤ) : ℚ) / 3600

/-- `calculate_refund_percentage` from `utils.py`: the bare `except`
swallows every error (in particular a failed `strptime`) and yields 0. -/
def calculate_refund_percentage (departure_time : String) (now : ℤ) : ℤ :=
  match strptime departure_time with
  | none => 0
  | some departure =>
    let hours_until_departure := hoursUntil departure now
    if hours_until_departure > 72 then 100
    else if hours_until_departure ≥ 24 then 75
    else if hours_until_departure ≥ 2 then 50
    else 0

/-! ## The store (tables of `db_schema.sql`, rows as read by `backend.py`) -/

/-- A row of the `Flights` table (the columns `create_booking` reads). -/
structure Flight where
  flight_id : ℤ
  base_price : ℚ
  total_seats : ℤ
  departure_time : String
deriving DecidableEq, Repr

/-- A row of the `Seats` table: per-(flight, seat_class) inventory. -/
structure SeatRow where
  flight_id : ℤ
  seat_class : String
  initial_inventory : ℤ
  available_seats : ℤ
  price_multiplier : ℚ
deriving DecidableEq, Repr

/-- A row of the `Bookings` table. -/
structure Booking where
  booking_id : ℕ
  flight_id : ℤ
  user_id : ℤ
  seat_class : String
  seats_booked : ℤ
  final_price : ℚ
  booking_date : String
  status : String
  pnr : String
deriving DecidableEq, Repr

/-- A row of the `Passengers` table. -/
structure PassengerRow where
  booking_id : ℕ
  first_name : String
  last_name : String
  email : Option String
  phone : Option String
deriving DecidableEq, Repr

/-- A row of the `Transactions` table (append-only ledger). -/
structure TransactionRow where
  booking_id : ℕ
  amount : ℚ
  payment_method : String
  status : String
  transaction_date : String
deriving DecidableEq, Repr

/-- A row of the `BookingHistory` table (append-only audit trail). -/
structure HistoryRow where
  booking_id : ℕ
  action : String
  details : String
  performed_at : String
deriving DecidableEq, Repr

/-- The whole relational store; `next_booking_id` models the
autoincrement rowid behind `cursor.lastrowid`. -/
structure Store where
  flights : List Flight
  seats : List SeatRow
  bookings : List Booking
  passengers : List PassengerRow
  transactions : List TransactionRow
  history : List HistoryRow
  next_booking_id : ℕ
deriving DecidableEq, Repr

/-- The key predicate of the `WHERE flight_id = ? AND seat_class = ?`
clauses on `Seats`. -/
def seatKey (fid : ℤ) (cls : String) (r : SeatRow) : Bool :=
  r.flight_id == fid && r.seat_class == cls

/-- `SELECT ... FROM Flights WHERE flight_id = ?` (first row). -/
def findFlight (st : Store) (fid : ℤ) : Option Flight :=
  st.flights.find? (fun f => f.flight_id == fid)

/-- `SELECT ... FROM Seats WHERE flight_id = ? AND seat_class = ?`. -/
def findSeat (st : Store) (fid : ℤ) (cls : String) : Option SeatRow :=
  st.seats.find? (seatKey fid cls)

/-- `SELECT ... FROM Bookings WHERE booking_id = ?`. -/
def findBooking (st : Store) (bid : ℕ) : Option Booking :=
  st.bookings.find? (fun b => b.booking_id == bid)

/-- A seat row with its `available_seats` column replaced. -/
def SeatRow.setAvail (r : SeatRow) (v : ℤ) : SeatRow :=
  ⟨r.flight_id, r.seat_class, r.initial_inventory, v, r.price_multiplier⟩

/-- A booking row with its `status` column replaced. -/
def Booking.setStatus (b : Booking) (s : String) : Booking :=
  ⟨b.booking_id, b.flight_id, b.user_id, b.seat_class, b.seats_booked,
    b.final_price, b.booking_date, s, b.pnr⟩

/-- `UPDATE Seats SET ... WHERE flight_id = ? AND seat_class = ?`:
every matching row is rewritten by `g`. -/
def updateSeats (seats : List SeatRow) (fid : ℤ) (cls : String)
    (g : SeatRow → SeatRow) : List SeatRow :=
  seats.map (fun r => if seatKey fid cls r then g r else r)

/-! ## The booking ledger (`backend.create_booking`, `backend.cancel_booking`) -/

/-- A passenger entry of a `BookingRequest` (pydantic `PassengerInfo`). -/
structure PassengerInfo where
  first_name : String
  last_name : String
  email : Option String
  phone : Option String
deriving DecidableEq, Repr

/-- The pydantic `BookingRequest` body of `POST /api/bookings`. -/
structure BookingRequest where
  flight_id : ℤ
  user_id : ℤ
  seat_class : String
  seats_count : ℤ
  payment_method : String
  passengers : List PassengerInfo
deriving DecidableEq, Repr

/-- The pydantic validation of `BookingRequest` (`models.py`): FastAPI
rejects a request violating it before `create_booking` runs, so the
ledger only ever sees requests satisfying this predicate. -/
def ValidBookingRequest (req : BookingRequest) : Prop :=
  1 ≤ req.seats_count ∧ req.seats_count ≤ 9 ∧
  (req.seat_class = "Economy" ∨ req.seat_class = "Business" ∨ req.seat_class = "First") ∧
  (req.passengers = [] ∨ (req.passengers.length : ℤ) = req.seats_count)

instance (req : BookingRequest) : Decidable (ValidBookingRequest req) := by
  unfold ValidBookingRequest; infer_instance

/-- The `HTTPException` classes the two ledger endpoints raise. -/
inductive ApiError where
  | notFound (detail : String)
  | conflict (detail : String)
  | internal (detail : String)
deriving DecidableEq, Repr

/-- The `pricing_summary` object of a successful booking response. -/
structure PricingSummary where
  price_per_seat : ℚ
  seats_booked : ℤ
  total_price : ℚ
deriving DecidableEq, Repr

/-- The body of a successful `POST /api/bookings` response. -/
structure BookingResponse where
  booking : Booking
  pricing_summary : PricingSummary
deriving DecidableEq, Repr

/-- The `refund` object of a cancellation response. -/
structure RefundInfo where
  percentage : ℤ
  amount : ℚ
deriving DecidableEq, Repr

/-- The body of a successful `POST /api/bookings/{id}/cancel` response. -/
structure CancelResponse where
  booking_id : ℕ
  status : String
  refund : RefundInfo
deriving DecidableEq, Repr

/-- `backend.create_booking` inside its `BEGIN IMMEDIATE` transaction.
`now` is the clock the pricing engine reads, `ts` the
`booking_timestamp` string, `pnr` the generated reference. An
`Except.error` models a raised `HTTPException` (the transaction is then
rolled back, see `run_create`); the pricing engine's `none` propagates
as the generic 500 handler. -/
def create_booking (st : Store) (req : BookingRequest) (now : ℤ)
    (ts pnr : String) : Except ApiError (Store × BookingResponse) :=
  match findFlight st req.flight_id with
  | none => .error (.notFound "Flight not found")
  | some flight =>
    match findSeat st req.flight_id req.seat_class with
    | none => .error (.notFound "Seat class not available")
    | some seat =>
      if seat.available_seats < req.seats_count then
        .error (.conflict "insufficient seats")
      else
        match calculate_dynamic_price flight.base_price seat.price_multiplier
            seat.available_seats flight.total_seats flight.departure_time
            "medium" now with
        | none => .error (.internal "Internal server error")
        | some price_per_seat =>
          let total_price := round2 (price_per_seat * (req.seats_count : ℚ))
          let bid := st.next_booking_id
          let b : Booking := ⟨bid, req.flight_id, req.user_id, req.seat_class,
            req.seats_count, total_price, ts, "Confirmed", pnr⟩
          let st' : Store := ⟨st.flights,
            updateSeats st.seats req.flight_id req.seat_class
              (fun r => r.setAvail (r.available_seats - req.seats_count)),
            st.bookings ++ [b],
            st.passengers ++ req.passengers.map
              (fun p => ⟨bid, p.first_name, p.last_name, p.email, p.phone⟩),
            st.transactions ++ [⟨bid, total_price, req.payment_method, "Completed", ts⟩],
            st.history ++ [⟨bid, "CREATED", "booked seats", ts⟩],
            bid + 1⟩
          .ok (st', ⟨b, ⟨price_per_seat, req.seats_count, total_price⟩⟩)

/-- `backend.cancel_booking` inside its `BEGIN IMMEDIATE` transaction.
Returns before any write when the booking is already Cancelled. -/
def cancel_booking (st : Store) (bid : ℕ) (now : ℤ) (ts : String) :
    Except ApiError (Store × CancelResponse) :=
  match findBooking st bid with
  | none => .error (.notFound "Booking not found")
  | some b =>
    if b.status = "Cancelled" then
      .ok (st, ⟨bid, "Cancelled", ⟨0, 0⟩⟩)
    else
      match findFlight st b.flight_id with
      | none => .error (.notFound "Flight not found for booking")
      | some flight =>
        let refund_percentage := calculate_refund_percentage flight.departure_time now
        let refund_amount := round2 (b.final_price * (refund_percentage : ℚ) / 100)
        match findSeat st b.flight_id b.seat_class with
        | none => .error (.notFound "Seat configuration not found")
        | some seat =>
          let new_available :=
            if seat.available_seats + b.seats_booked > seat.initial_inventory
            then seat.initial_inventory
            else seat.available_seats + b.seats_booked
          let st' : Store := ⟨st.flights,
            updateSeats st.seats b.flight_id b.seat_class (fun r => r.setAvail new_available),
            st.bookings.map (fun b2 => if b2.booking_id == bid
              then b2.setStatus "Cancelled" else b2),
            st.passengers,
            st.transactions ++ (if refund_amount > 0
              then [⟨bid, -refund_amount, "REFUND", "Completed", ts⟩] else []),
            st.history ++ [⟨bid, "CANCELLED", "refund recorded", ts⟩],
            st.next_booking_id⟩
          .ok (st', ⟨bid, "Cancelled", ⟨refund_percentage, refund_amount⟩⟩)

/-- The endpoint as the caller observes it: on any `HTTPException` the
transaction is rolled back (`conn.rollback()`), so the store is exactly
the pre-call store. -/
def run_create (st : Store) (req : BookingRequest) (now : ℤ) (ts pnr : String) :
    Store × Except ApiError BookingResponse :=
  match create_booking st req now ts pnr with
  | .ok (st', resp) => (st', .ok resp)
  | .error e => (st, .error e)

/-- Rollback wrapper of `cancel_booking`, as `run_create`. -/
def run_cancel (st : Store) (bid : ℕ) (now : ℤ) (ts : String) :
    Store × Except ApiError CancelResponse :=
  match cancel_booking st bid now ts with
  | .ok (st', resp) => (st', .ok resp)
  | .error e => (st, .error e)

/-! ## Operation sequences over the store -/

/-- One API call against the ledger, with its ambient inputs (clock,
timestamp string, generated PNR). -/
inductive Op where
  | book (req : BookingRequest) (now : ℤ) (ts pnr : String)
  | cancel (bid : ℕ) (now : ℤ) (ts : String)
deriving DecidableEq, Repr

/-- Requests reaching the ledger passed pydantic validation. -/
def ValidOp : Op → Prop
  | .book req _ _ _ => ValidBookingRequest req
  | .cancel _ _ _ => True

instance (op : Op) : Decidable (ValidOp op) := by
  cases op <;> (unfold ValidOp; infer_instance)

/-- The store after one API call (failed calls roll back). -/
def applyOp (st : Store) : Op → Store
  | .book req now ts pnr => (run_create st req now ts pnr).1
  | .cancel bid now ts => (run_cancel st bid now ts).1

/-- The store after a sequence of API calls. -/
def applyOps (st : Store) (ops : List Op) : Store :=
  ops.foldl applyOp st


/-- Two seat rows with the same (flight_id, seat_class) key. -/
def sameSeatKey (r1 r2 : SeatRow) : Prop :=
  r1.flight_id = r2.flight_id ∧ r1.seat_class = r2.seat_class

/-- The `Seats` table holds at most one row per (flight, seat_class):
the data model's "per (flight, seat_class) mutable record". -/
def UniqueSeats (seats : List SeatRow) : Prop :=
  seats.Pairwise (fun r1 r2 => ¬ sameSeatKey r1 r2)

/-- The store a successful booking commits. -/
def createdStore (st : Store) (req : BookingRequest) (ts pnr : String)
    (price_per_seat : ℚ) : Store :=
  ⟨st.flights,
    updateSeats st.seats req.flight_id req.seat_class
      (fun r => r.setAvail (r.available_seats - req.seats_count)),
    st.bookings ++ [⟨st.next_booking_id, req.flight_id, req.user_id, req.seat_class,
      req.seats_count, round2 (price_per_seat * (req.seats_count : ℚ)), ts, "Confirmed", pnr⟩],
    st.passengers ++ req.passengers.map
      (fun p => ⟨st.next_booking_id, p.first_name, p.last_name, p.email, p.phone⟩),
    st.transactions ++ [⟨st.next_booking_id, round2 (price_per_seat * (req.seats_count : ℚ)),
      req.payment_method, "Completed", ts⟩],
    st.history ++ [⟨st.next_booking_id, "CREATED", "booked seats", ts⟩],
    st.next_booking_id + 1⟩

/-- The store a cancellation of a not-yet-cancelled booking commits. -/
def cancelledStore (st : Store) (bid : ℕ) (ts : String) (b : Booking)
    (new_available : ℤ) (refund_amount : ℚ) : Store :=
  ⟨st.flights,
    updateSeats st.seats b.flight_id b.seat_class (fun r => r.setAvail new_available),
    st.bookings.map (fun b2 => if b2.booking_id == bid then b2.setStatus "Cancelled" else b2),
    st.passengers,
    st.transactions ++ (if refund_amount > 0
      then [⟨bid, -refund_amount, "REFUND", "Completed", ts⟩] else []),
    st.history ++ [⟨bid, "CANCELLED", "refund recorded", ts⟩],
    st.next_booking_id⟩

/-- The state invariant the ledger maintains: seat keys are unique (the
data model's per-(flight, seat_class) record), every inventory row
satisfies `0 ≤ available_seats ≤ initial_inventory`, and every booking
row reserves a non-negative seat count. -/
def StoreInv (st : Store) : Prop :=
  UniqueSeats st.seats ∧
  (∀ r ∈ st.seats, 0 ≤ r.available_seats ∧ r.available_seats ≤ r.initial_inventory) ∧
  (∀ b ∈ st.bookings, 0 ≤ b.seats_booked)

/-- A fresh store: every seat row full (`available_seats =
initial_inventory`, a non-negative capacity), unique seat keys, and no
bookings yet. -/
def InitialStore (st : Store) : Prop :=
  UniqueSeats st.seats ∧
  (∀ r ∈ st.seats, r.available_seats = r.initial_inventory ∧ 0 ≤ r.initial_inventory) ∧
  st.bookings = []

/-- One `POST /api/bookings` call with its ambient inputs. -/
structure BookCall where
  req : BookingRequest
  now : ℤ
  ts : String
  pnr : String
deriving DecidableEq, Repr

/-- Run a sequence of booking calls, `none` as soon as one fails
(so `some` means every booking in the run succeeded). -/
def bookSeq (st : Store) : List BookCall → Option Store
  | [] => some st
  | c :: rest =>
    match create_booking st c.req c.now c.ts c.pnr with
    | .ok (st', _) => bookSeq st' rest
    | .error _ => none

/-- Total seats requested by a run of booking calls. -/
def seatsSum (calls : List BookCall) : ℤ :=
  (calls.map (fun c => c.req.seats_count)).sum

/-! ## Concrete sample data (used to instantiate hypotheses) -/

/-- A flight leaving twelve hours after clock 0. -/
def sampleFlight : Flight := ⟨1, 100, 100, "0001-01-01 12:00:00"⟩

/-- Economy on `sampleFlight`: 20 of 20 class seats left (of the
flight's 100 total seats, so the flight itself is 80% occupied). -/
def sampleSeat : SeatRow := ⟨1, "Economy", 20, 20, 1⟩

/-- A store holding just `sampleFlight` and `sampleSeat`. -/
def sampleStore : Store := ⟨[sampleFlight], [sampleSeat], [], [], [], [], 1⟩

/-- A valid two-seat Economy request against `sampleFlight`. -/
def sampleReq : BookingRequest := ⟨1, 7, "Economy", 2, "Credit Card", []⟩

/-- Economy on flight 1 with only one seat left. -/
def scarceSeat : SeatRow := ⟨1, "Economy", 5, 1, 1⟩

/-- A store where `sampleReq` exceeds the remaining capacity. -/
def scarceStore : Store := ⟨[sampleFlight], [scarceSeat], [], [], [], [], 1⟩

/-- An already-cancelled booking of 2 Economy seats on flight 1. -/
def cancelledBooking : Booking :=
  ⟨1, 1, 7, "Economy", 2, 600, "0001-01-01 00:00:00", "Cancelled", "PNR234"⟩

/-- A confirmed booking of 2 Economy seats on flight 1. -/
def confirmedBooking : Booking :=
  ⟨1, 1, 7, "Economy", 2, 600, "0001-01-01 00:00:00", "Confirmed", "PNR234"⟩

/-- A store holding `cancelledBooking`. -/
def cancelledStore0 : Store :=
  ⟨[sampleFlight], [sampleSeat], [cancelledBooking], [], [], [], 2⟩

/-- A store holding `confirmedBooking` (its two seats already deducted). -/
def confirmedStore0 : Store :=
  ⟨[sampleFlight], [⟨1, "Economy", 20, 18, 1⟩], [confirmedBooking], [], [], [], 2⟩

end FlightBooking

namespace FlightBooking

/-- `roundHalfEven` is the identity on integers. -/
theorem roundHalfEven_intCast (n : ℤ) : roundHalfEven (n : ℚ) = n := by
  simp [roundHalfEven]

/-- `round2` is the identity on integers. -/
theorem round2_intCast (n : ℤ) : round2 (n : ℚ) = (n : ℚ) := by
  have h : (100 : ℚ) * (n : ℚ) = ((100 * n : ℤ) : ℚ) := by push_cast; ring
  rw [round2, h, roundHalfEven_intCast]
  push_cast
  ring

/-! ## Lemmas about seat lookup and update -/

/-- Unfolding of the seat-key test into propositional equalities. -/
theorem seatKey_eq_true {fid : ℤ} {cls : String} {r : SeatRow} :
    seatKey fid cls r = true ↔ r.flight_id = fid ∧ r.seat_class = cls := by
  simp [seatKey]

/-- `SeatRow.setAvail` keeps the key columns. -/
theorem setAvail_key (r : SeatRow) (v : ℤ) :
    (r.setAvail v).flight_id = r.flight_id ∧ (r.setAvail v).seat_class = r.seat_class :=
  ⟨rfl, rfl⟩

/-- Looking a key up after an `UPDATE` on that key maps the update over
the looked-up row, provided the update keeps the key columns. -/
theorem find?_updateSeats (seats : List SeatRow) (fid : ℤ) (cls : String)
    (g : SeatRow → SeatRow)
    (hg : ∀ r, seatKey fid cls r = true → seatKey fid cls (g r) = true) :
    (updateSeats seats fid cls g).find? (seatKey fid cls) =
      (seats.find? (seatKey fid cls)).map g := by
  induction seats with
  | nil => rfl
  | cons r rest ih =>
    by_cases h : seatKey fid cls r = true
    · simp only [updateSeats, List.map_cons, if_pos h]
      rw [List.find?_cons_of_pos _ (hg r h), List.find?_cons_of_pos _ h, Option.map_some']
    · simp only [updateSeats, List.map_cons, if_neg h]
      rw [List.find?_cons_of_neg _ (by simpa using h), List.find?_cons_of_neg _ (by simpa using h)]
      exact ih

/-- With unique keys, any member matching a key is the row `find?`
returns for that key. -/
theorem mem_key_eq_find? {seats : List SeatRow} {fid : ℤ} {cls : String}
    {a b : SeatRow} (hu : UniqueSeats seats)
    (ha : seats.find? (seatKey fid cls) = some a)
    (hb : b ∈ seats) (hkb : seatKey fid cls b = true) : b = a := by
  induction seats with
  | nil => cases hb
  | cons r rest ih =>
    rw [UniqueSeats, List.pairwise_cons] at hu
    by_cases h : seatKey fid cls r = true
    · rw [List.find?_cons_of_pos _ h, Option.some.injEq] at ha
      rcases List.mem_cons.mp hb with hbr | hbrest
      · rw [hbr, ha]
      · exfalso
        have hk1 := seatKey_eq_true.mp h
        have hk2 := seatKey_eq_true.mp hkb
        exact hu.1 b hbrest ⟨hk1.1.trans hk2.1.symm, hk1.2.trans hk2.2.symm⟩
    · rw [List.find?_cons_of_neg _ (by simpa using h)] at ha
      rcases List.mem_cons.mp hb with hbr | hbrest
      · exact absurd (hbr ▸ hkb) h
      · exact ih hu.2 ha hbrest

/-- Membership in an updated seats table. -/
theorem mem_updateSeats {seats : List SeatRow} {fid : ℤ} {cls : String}
    {g : SeatRow → SeatRow} {r' : SeatRow}
    (h : r' ∈ updateSeats seats fid cls g) :
    ∃ r ∈ seats, r' = if seatKey fid cls r then g r else r := by
  rcases List.mem_map.mp h with ⟨r, hr, hr'⟩
  exact ⟨r, hr, hr'.symm⟩

/-- An `UPDATE` that keeps the key columns keeps the table's keys unique. -/
theorem uniqueSeats_updateSeats {seats : List SeatRow} {fid : ℤ} {cls : String}
    {g : SeatRow → SeatRow}
    (hg : ∀ r, (g r).flight_id = r.flight_id ∧ (g r).seat_class = r.seat_class)
    (hu : UniqueSeats seats) : UniqueSeats (updateSeats seats fid cls g) := by
  rw [UniqueSeats, updateSeats, List.pairwise_map]
  refine hu.imp ?_
  intro r1 r2 hne hsame
  apply hne
  have k1 : ∀ r : SeatRow, (if seatKey fid cls r then g r else r).flight_id = r.flight_id := by
    intro r; split
    · exact (hg r).1
    · rfl
  have k2 : ∀ r : SeatRow, (if seatKey fid cls r then g r else r).seat_class = r.seat_class := by
    intro r; split
    · exact (hg r).2
    · rfl
  exact ⟨(k1 r1).symm.trans (hsame.1.trans (k1 r2)), (k2 r1).symm.trans (hsame.2.trans (k2 r2))⟩

/-! ## Inversion of the two ledger transactions -/

/-- Inverting a successful `create_booking`: the lookups succeeded, the
capacity check passed, the pricing engine returned a value, and the
committed store and response are the expected ones. -/
theorem create_booking_ok {st : Store} {req : BookingRequest} {now : ℤ}
    {ts pnr : String} {st' : Store} {resp : BookingResponse}
    (h : create_booking st req now ts pnr = .ok (st', resp)) :
    ∃ flight seat price_per_seat,
      findFlight st req.flight_id = some flight ∧
      findSeat st req.flight_id req.seat_class = some seat ∧
      ¬ seat.available_seats < req.seats_count ∧
      calculate_dynamic_price flight.base_price seat.price_multiplier
        seat.available_seats flight.total_seats flight.departure_time "medium" now
        = some price_per_seat ∧
      st' = createdStore st req ts pnr price_per_seat ∧
      resp = ⟨⟨st.next_booking_id, req.flight_id, req.user_id, req.seat_class,
          req.seats_count, round2 (price_per_seat * (req.seats_count : ℚ)), ts, "Confirmed", pnr⟩,
        ⟨price_per_seat, req.seats_count, round2 (price_per_seat * (req.seats_count : ℚ))⟩⟩ := by
  unfold create_booking at h
  cases hf : findFlight st req.flight_id with
  | none => rw [hf] at h; exact Except.noConfusion h
  | some flight =>
    rw [hf] at h
    cases hs : findSeat st req.flight_id req.seat_class with
    | none => rw [hs] at h; exact Except.noConfusion h
    | some seat =>
      rw [hs] at h
      simp only at h
      by_cases hc : seat.available_seats < req.seats_count
      · rw [if_pos hc] at h; exact Except.noConfusion h
      · rw [if_neg hc] at h
        cases hp : calculate_dynamic_price flight.base_price seat.price_multiplier
            seat.available_seats flight.total_seats flight.departure_time "medium" now with
        | none => rw [hp] at h; exact Except.noConfusion h
        | some pps =>
          rw [hp] at h
          simp only [Except.ok.injEq, Prod.mk.injEq] at h
          exact ⟨flight, seat, pps, rfl, rfl, hc, hp,
            h.1.symm, h.2.symm⟩

/-- Inverting a successful `cancel_booking`: either the booking was
already Cancelled and nothing changed, or the lookups succeeded and the
clamped inventory restore was committed. -/
theorem cancel_booking_ok {st : Store} {bid : ℕ} {now : ℤ} {ts : String}
    {st' : Store} {resp : CancelResponse}
    (h : cancel_booking st bid now ts = .ok (st', resp)) :
    ∃ b, findBooking st bid = some b ∧
      ((b.status = "Cancelled" ∧ st' = st ∧ resp = ⟨bid, "Cancelled", ⟨0, 0⟩⟩) ∨
       (b.status ≠ "Cancelled" ∧ ∃ flight seat,
         findFlight st b.flight_id = some flight ∧
         findSeat st b.flight_id b.seat_class = some seat ∧
         st' = cancelledStore st bid ts b
           (if seat.available_seats + b.seats_booked > seat.initial_inventory
            then seat.initial_inventory
            else seat.available_seats + b.seats_booked)
           (round2 (b.final_price * ((calculate_refund_percentage flight.departure_time now : ℤ) : ℚ) / 100)) ∧
         resp = ⟨bid, "Cancelled",
           ⟨calculate_refund_percentage flight.departure_time now,
            round2 (b.final_price * ((calculate_refund_percentage flight.departure_time now : ℤ) : ℚ) / 100)⟩⟩)) := by
  unfold cancel_booking at h
  cases hb : findBooking st bid with
  | none => rw [hb] at h; exact Except.noConfusion h
  | some b =>
    rw [hb] at h
    simp only at h
    by_cases hst : b.status = "Cancelled"
    · rw [if_pos hst] at h
      simp only [Except.ok.injEq, Prod.mk.injEq] at h
      exact ⟨b, rfl, Or.inl ⟨hst, h.1.symm, h.2.symm⟩⟩
    · rw [if_neg hst] at h
      cases hf : findFlight st b.flight_id with
      | none => rw [hf] at h; exact Except.noConfusion h
      | some flight =>
        rw [hf] at h
        cases hsr : findSeat st b.flight_id b.seat_class with
        | none => rw [hsr] at h; exact Except.noConfusion h
        | some seat =>
          rw [hsr] at h
          simp only [Except.ok.injEq, Prod.mk.injEq] at h
          exact ⟨b, rfl, Or.inr ⟨hst, flight, seat, hf, hsr, h.1.symm, h.2.symm⟩⟩

/-! ## The inventory invariant -/

theorem initialStore_inv {st : Store} (h : InitialStore st) : StoreInv st := by
  refine ⟨h.1, fun r hr => ?_, fun b hb => ?_⟩
  · rcases h.2.1 r hr with ⟨he, h0⟩
    exact ⟨he ▸ h0, he.le⟩
  · rw [h.2.2] at hb
    cases hb

/-- A committed booking keeps the invariant (the request passed
pydantic validation, so it asks for at least one seat). -/
theorem storeInv_create {st : Store} {req : BookingRequest} {now : ℤ}
    {ts pnr : String} {st' : Store} {resp : BookingResponse}
    (hreq : 0 ≤ req.seats_count) (hinv : StoreInv st)
    (h : create_booking st req now ts pnr = .ok (st', resp)) : StoreInv st' := by
  obtain ⟨flight, seat, pps, hf, hs, hc, hp, hst', hresp⟩ := create_booking_ok h
  subst hst'
  refine ⟨?_, ?_, ?_⟩
  · exact uniqueSeats_updateSeats (fun r => setAvail_key r _) hinv.1
  · intro r' hr'
    obtain ⟨r, hr, hreq'⟩ := mem_updateSeats hr'
    by_cases hk : seatKey req.flight_id req.seat_class r = true
    · rw [if_pos hk] at hreq'
      have hrs : r = seat := mem_key_eq_find? hinv.1 hs hr hk
      subst hrs
      rcases hinv.2.1 r hr with ⟨h0, h1⟩
      subst hreq'
      constructor
      · simp only [SeatRow.setAvail]
        omega
      · simp only [SeatRow.setAvail]
        omega
    · rw [if_neg hk] at hreq'
      exact hreq' ▸ hinv.2.1 r hr
  · intro b hb
    simp only [createdStore, List.mem_append, List.mem_singleton] at hb
    rcases hb with hb | hb
    · exact hinv.2.2 b hb
    · subst hb; exact hreq

/-- A committed cancellation keeps the invariant: the restore is
clamped to `initial_inventory` and both summands are non-negative. -/
theorem storeInv_cancel {st : Store} {bid : ℕ} {now : ℤ} {ts : String}
    {st' : Store} {resp : CancelResponse} (hinv : StoreInv st)
    (h : cancel_booking st bid now ts = .ok (st', resp)) : StoreInv st' := by
  obtain ⟨b, hb, hcase⟩ := cancel_booking_ok h
  rcases hcase with ⟨-, hst', -⟩ | ⟨-, flight, seat, hf, hsr, hst', -⟩
  · exact hst' ▸ hinv
  · subst hst'
    have hbmem : b ∈ st.bookings := List.mem_of_find?_eq_some hb
    have hbpos : 0 ≤ b.seats_booked := hinv.2.2 b hbmem
    have hseatmem : seat ∈ st.seats := List.mem_of_find?_eq_some hsr
    rcases hinv.2.1 seat hseatmem with ⟨h0, h1⟩
    refine ⟨?_, ?_, ?_⟩
    · exact uniqueSeats_updateSeats (fun r => setAvail_key r _) hinv.1
    · intro r' hr'
      obtain ⟨r, hr, hreq'⟩ := mem_updateSeats hr'
      by_cases hk : seatKey b.flight_id b.seat_class r = true
      · rw [if_pos hk] at hreq'
        have hrs : r = seat := mem_key_eq_find? hinv.1 hsr hr hk
        subst hrs hreq'
        constructor
        · simp only [SeatRow.setAvail]
          split <;> omega
        · simp only [SeatRow.setAvail]
          split <;> omega
      · rw [if_neg hk] at hreq'
        exact hreq' ▸ hinv.2.1 r hr
    · intro b2 hb2
      simp only [cancelledStore, List.mem_map] at hb2
      obtain ⟨b3, hb3, hb2'⟩ := hb2
      have : b2.seats_booked = b3.seats_booked := by
        subst hb2'
        split <;> rfl
      rw [this]
      exact hinv.2.2 b3 hb3

/-- One API call keeps the invariant. -/
theorem storeInv_applyOp {st : Store} {op : Op} (hop : ValidOp op)
    (hinv : StoreInv st) : StoreInv (applyOp st op) := by
  cases op with
  | book req now ts pnr =>
    simp only [applyOp, run_create]
    cases hcb : create_booking st req now ts pnr with
    | ok p =>
      rcases p with ⟨st', resp⟩
      exact storeInv_create (by rcases hop with ⟨h1, -⟩; omega) hinv hcb
    | error e => exact hinv
  | cancel bid now ts =>
    simp only [applyOp, run_cancel]
    cases hcb : cancel_booking st bid now ts with
    | ok p =>
      rcases p with ⟨st', resp⟩
      exact storeInv_cancel hinv hcb
    | error e => exact hinv

/-- Any sequence of validated API calls keeps the invariant. -/
theorem storeInv_applyOps {st : Store} {ops : List Op}
    (hops : ∀ op ∈ ops, ValidOp op) (hinv : StoreInv st) :
    StoreInv (applyOps st ops) := by
  induction ops generalizing st with
  | nil => exact hinv
  | cons op rest ih =>
    exact ih (fun o ho => hops o (List.mem_cons_of_mem op ho))
      (storeInv_applyOp (hops op (List.mem_cons_self op rest)) hinv)

/-! ## Accounting across a run of successful bookings -/

/-- After a run of successful bookings against one (flight, seat_class)
key, that key's row has been decremented by the total seats booked and
its other columns are untouched. -/
theorem bookSeq_findSeat {fid : ℤ} {cls : String} :
    ∀ (calls : List BookCall) (st st1 : Store),
      (∀ c ∈ calls, c.req.flight_id = fid ∧ c.req.seat_class = cls) →
      bookSeq st calls = some st1 →
      findSeat st1 fid cls = (findSeat st fid cls).map
        (fun r => r.setAvail (r.available_seats - seatsSum calls)) := by
  intro calls
  induction calls with
  | nil =>
    intro st st1 _ hrun
    simp only [bookSeq, Option.some.injEq] at hrun
    subst hrun
    cases hfind : findSeat st fid cls with
    | none => rfl
    | some r =>
      simp only [Option.map_some', Option.some.injEq, seatsSum, List.map_nil, List.sum_nil,
        sub_zero]
      rfl
  | cons c rest ih =>
    intro st st1 hkeys hrun
    unfold bookSeq at hrun
    cases hcb : create_booking st c.req c.now c.ts c.pnr with
    | error e => rw [hcb] at hrun; exact Option.noConfusion hrun
    | ok p =>
      rcases p with ⟨st', resp⟩
      rw [hcb] at hrun
      obtain ⟨flight, seat, pps, hf, hs, hc, hp, hst', -⟩ := create_booking_ok hcb
      have hkey := hkeys c (List.mem_cons_self c rest)
      have hseats : st'.seats = updateSeats st.seats fid cls
          (fun r => r.setAvail (r.available_seats - c.req.seats_count)) := by
        rw [hst']
        simp only [createdStore]
        rw [hkey.1, hkey.2]
      have hfind' : findSeat st' fid cls = (findSeat st fid cls).map
          (fun r => r.setAvail (r.available_seats - c.req.seats_count)) := by
        unfold findSeat
        rw [hseats]
        exact find?_updateSeats st.seats fid cls _
          (fun r hr => by
            rw [seatKey_eq_true] at hr ⊢
            exact ⟨hr.1, hr.2⟩)
      have := ih st' st1 (fun c2 hc2 => hkeys c2 (List.mem_cons_of_mem c hc2)) hrun
      rw [this, hfind']
      cases findSeat st fid cls with
      | none => rfl
      | some r =>
        simp only [Option.map_some', Option.some.injEq, SeatRow.setAvail, seatsSum,
          List.map_cons, List.sum_cons]
        congr 1
        ring

/-- The dynamic price of `sampleFlight`/`sampleSeat` at clock 0:
80% occupancy (1.5×), 12 hours out (2.0×), medium demand (1.0×). -/
theorem sample_dynamic_price :
    calculate_dynamic_price 100 1 20 100 "0001-01-01 12:00:00" "medium" 0 = some 300 := by
  rw [calculate_dynamic_price, calculate_time_multiplier,
    show strptime "0001-01-01 12:00:00" = some ⟨1, 1, 1, 12, 0, 0⟩ from by decide]
  norm_num [occupancyRatio, calculate_occupancy_multiplier, daysUntil, toSeconds,
    daysFromYearOne, daysBeforeMonth, leapCount, daysInMonth, timeMultiplierOfDays,
    calculate_demand_multiplier,
    show toLowerStr "medium" = "medium" from by decide,
    show (("medium" : String) = "high") = False from by decide,
    show (("medium" : String) = "low") = False from by decide,
    List.range_succ]
  rw [show ((300 : ℚ) = ((300 : ℤ) : ℚ)) from by norm_num, round2_intCast]

end FlightBooking

namespace FlightBooking

/-! ## Helper evaluations at concrete clock values -/

theorem hoursUntil_100h : hoursUntil ⟨1, 1, 5, 4, 0, 0⟩ 0 = 100 := by
  norm_num [hoursUntil, toSeconds, daysFromYearOne, daysBeforeMonth, leapCount,
    daysInMonth, List.range_succ]

theorem hoursUntil_10h : hoursUntil ⟨1, 1, 1, 10, 0, 0⟩ 0 = 10 := by
  norm_num [hoursUntil, toSeconds, daysFromYearOne, daysBeforeMonth, leapCount,
    daysInMonth, List.range_succ]

theorem hoursUntil_1h : hoursUntil ⟨1, 1, 1, 1, 0, 0⟩ 0 = 1 := by
  norm_num [hoursUntil, toSeconds, daysFromYearOne, daysBeforeMonth, leapCount,
    daysInMonth, List.range_succ]

theorem refund_at_100h : calculate_refund_percentage "0001-01-05 04:00:00" 0 = 100 := by
  simp only [calculate_refund_percentage,
    show strptime "0001-01-05 04:00:00" = some ⟨1, 1, 5, 4, 0, 0⟩ from by decide,
    hoursUntil_100h]
  norm_num

theorem refund_at_10h : calculate_refund_percentage "0001-01-01 10:00:00" 0 = 50 := by
  simp only [calculate_refund_percentage,
    show strptime "0001-01-01 10:00:00" = some ⟨1, 1, 1, 10, 0, 0⟩ from by decide,
    hoursUntil_10h]
  norm_num

theorem refund_at_1h : calculate_refund_percentage "0001-01-01 01:00:00" 0 = 0 := by
  simp only [calculate_refund_percentage,
    show strptime "0001-01-01 01:00:00" = some ⟨1, 1, 1, 1, 0, 0⟩ from by decide,
    hoursUntil_1h]
  norm_num

/-! ## The claims -/

/-- C1: a booking request whose (flight, seat_class) inventory row has
`available_seats < seats_count` fails with the 409 Conflict error and
the store is returned exactly as it was: no Booking, Passenger,
Transaction or BookingHistory row is inserted and `available_seats` is
not decremented. -/
theorem C1_conflict_fails_and_rolls_back (st : Store) (req : BookingRequest)
    (now : ℤ) (ts pnr : String) (flight : Flight) (seat : SeatRow)
    (hf : findFlight st req.flight_id = some flight)
    (hs : findSeat st req.flight_id req.seat_class = some seat)
    (hc : seat.available_seats < req.seats_count) :
    run_create st req now ts pnr = (st, .error (.conflict "insufficient seats")) := by
  simp only [run_create, create_booking, hf, hs, if_pos hc]

/-- Witness for C1: in `scarceStore` (one Economy seat left) a two-seat
request is rejected with Conflict and the store is unchanged. -/
theorem C1_witness :
    run_create scarceStore sampleReq 0 "0001-01-01 00:00:00" "PNR234" =
      (scarceStore, .error (.conflict "insufficient seats")) :=
  C1_conflict_fails_and_rolls_back scarceStore sampleReq 0 "0001-01-01 00:00:00" "PNR234"
    sampleFlight scarceSeat rfl rfl (by decide)

/-- C5: cancelling a booking whose status is already Cancelled returns
success with refund {percentage: 0, amount: 0} and performs no
mutation: the returned store is exactly the input store. -/
theorem C5_recancel_is_noop (st : Store) (bid : ℕ) (now : ℤ) (ts : String)
    (b : Booking) (hb : findBooking st bid = some b)
    (hst : b.status = "Cancelled") :
    cancel_booking st bid now ts = .ok (st, ⟨bid, "Cancelled", ⟨0, 0⟩⟩) := by
  simp only [cancel_booking, hb, if_pos hst]

/-- Witness for C5: re-cancelling `cancelledBooking` in
`cancelledStore0` succeeds with a zero refund and changes nothing. -/
theorem C5_witness :
    cancel_booking cancelledStore0 1 0 "0001-01-01 00:00:00" =
      .ok (cancelledStore0, ⟨1, "Cancelled", ⟨0, 0⟩⟩) :=
  C5_recancel_is_noop cancelledStore0 1 0 "0001-01-01 00:00:00" cancelledBooking rfl rfl

/-- C6: cancelling a Confirmed booking succeeds and sets the
(flight, seat_class) row's `available_seats` to
`min (available_seats + seats_booked) initial_inventory`, so restored
inventory never exceeds the class's initial capacity. -/
theorem C6_cancel_restores_clamped (st : Store) (bid : ℕ) (now : ℤ) (ts : String)
    (b : Booking) (flight : Flight) (seat : SeatRow)
    (hb : findBooking st bid = some b) (hstat : b.status = "Confirmed")
    (hf : findFlight st b.flight_id = some flight)
    (hs : findSeat st b.flight_id b.seat_class = some seat) :
    ∃ st' resp, cancel_booking st bid now ts = .ok (st', resp) ∧
      findSeat st' b.flight_id b.seat_class = some (seat.setAvail
        (min (seat.available_seats + b.seats_booked) seat.initial_inventory)) := by
  have hne : ¬ b.status = "Cancelled" := by rw [hstat]; decide
  refine ⟨cancelledStore st bid ts b
      (if seat.available_seats + b.seats_booked > seat.initial_inventory
       then seat.initial_inventory else seat.available_seats + b.seats_booked)
      (round2 (b.final_price * ((calculate_refund_percentage flight.departure_time now : ℤ) : ℚ) / 100)),
    ⟨bid, "Cancelled",
      ⟨calculate_refund_percentage flight.departure_time now,
       round2 (b.final_price * ((calculate_refund_percentage flight.departure_time now : ℤ) : ℚ) / 100)⟩⟩,
    ?_, ?_⟩
  · simp only [cancel_booking, hb, if_neg hne, hf, hs]
    rfl
  · show (updateSeats st.seats b.flight_id b.seat_class _).find? (seatKey b.flight_id b.seat_class)
      = _
    rw [find?_updateSeats st.seats b.flight_id b.seat_class _
      (fun r hr => by rw [seatKey_eq_true] at hr ⊢; exact ⟨hr.1, hr.2⟩)]
    rw [show st.seats.find? (seatKey b.flight_id b.seat_class) = some seat from hs,
      Option.map_some', Option.some.injEq]
    congr 1
    rw [min_def]
    split_ifs <;> omega

/-- Witness for C6: cancelling `confirmedBooking` (2 seats, 18 of 20
left) restores the row to 20 = min (18 + 2) 20. -/
theorem C6_witness :
    ∃ st' resp, cancel_booking confirmedStore0 1 0 "0001-01-01 00:00:00" = .ok (st', resp) ∧
      findSeat st' 1 "Economy" =
        some (SeatRow.setAvail ⟨1, "Economy", 20, 18, 1⟩ (min (18 + 2) 20)) :=
  C6_cancel_restores_clamped confirmedStore0 1 0 "0001-01-01 00:00:00"
    confirmedBooking sampleFlight ⟨1, "Economy", 20, 18, 1⟩ rfl rfl rfl rfl

/-- C7: a successful booking prices each seat with the Pricing Engine
applied to the pre-decrement `available_seats` (the row as read before
the `UPDATE`), and records `round(price_per_seat * seats_count, 2)` as
the booking's total price, both in the response and in the inserted
Booking row. -/
theorem C7_price_from_predecrement (st : Store) (req : BookingRequest)
    (now : ℤ) (ts pnr : String) (flight : Flight) (seat : SeatRow) (pps : ℚ)
    (hf : findFlight st req.flight_id = some flight)
    (hs : findSeat st req.flight_id req.seat_class = some seat)
    (hc : ¬ seat.available_seats < req.seats_count)
    (hp : calculate_dynamic_price flight.base_price seat.price_multiplier
      seat.available_seats flight.total_seats flight.departure_time "medium" now
      = some pps) :
    ∃ st' resp, create_booking st req now ts pnr = .ok (st', resp) ∧
      resp.pricing_summary.price_per_seat = pps ∧
      resp.booking.final_price = round2 (pps * (req.seats_count : ℚ)) ∧
      resp.pricing_summary.total_price = round2 (pps * (req.seats_count : ℚ)) ∧
      st'.bookings = st.bookings ++ [resp.booking] := by
  refine ⟨createdStore st req ts pnr pps,
    ⟨⟨st.next_booking_id, req.flight_id, req.user_id, req.seat_class, req.seats_count,
      round2 (pps * (req.seats_count : ℚ)), ts, "Confirmed", pnr⟩,
     ⟨pps, req.seats_count, round2 (pps * (req.seats_count : ℚ))⟩⟩,
    ?_, rfl, rfl, rfl, rfl⟩
  simp only [create_booking, hf, hs, if_neg hc, hp]
  rfl

/-- Witness for C7: booking 2 seats in `sampleStore` (price 300 per
seat from the pre-decrement 20 available) records round2(300 * 2). -/
theorem C7_witness :
    ∃ st' resp,
      create_booking sampleStore sampleReq 0 "0001-01-01 00:00:00" "PNR234" = .ok (st', resp) ∧
      resp.pricing_summary.price_per_seat = 300 ∧
      resp.booking.final_price = round2 (300 * ((sampleReq.seats_count : ℤ) : ℚ)) ∧
      resp.pricing_summary.total_price = round2 (300 * ((sampleReq.seats_count : ℤ) : ℚ)) ∧
      st'.bookings = sampleStore.bookings ++ [resp.booking] :=
  C7_price_from_predecrement sampleStore sampleReq 0 "0001-01-01 00:00:00" "PNR234"
    sampleFlight sampleSeat 300 rfl rfl (by decide) sample_dynamic_price

end FlightBooking

namespace FlightBooking

/-- C2: from an initial store (all seat rows full, per-(flight, class)
keys unique, no bookings), every state reachable by validated
createBooking / cancelBooking calls satisfies
`0 ≤ available_seats ≤ initial_inventory` on every inventory row;
and after a run of successful bookings of sizes s1..sk against one
(flight, seat_class) key (no cancellations), that row's
`available_seats` equals `initial_inventory - (s1 + ... + sk)`. -/
theorem C2_inventory_invariant :
    (∀ st0 : Store, InitialStore st0 → ∀ ops : List Op, (∀ op ∈ ops, ValidOp op) →
      ∀ r ∈ (applyOps st0 ops).seats,
        0 ≤ r.available_seats ∧ r.available_seats ≤ r.initial_inventory) ∧
    (∀ st0 : Store, InitialStore st0 → ∀ (fid : ℤ) (cls : String)
      (calls : List BookCall) (st1 : Store),
      (∀ c ∈ calls, c.req.flight_id = fid ∧ c.req.seat_class = cls) →
      bookSeq st0 calls = some st1 →
      ∀ r1, findSeat st1 fid cls = some r1 →
        r1.available_seats = r1.initial_inventory - seatsSum calls) := by
  constructor
  · intro st0 h0 ops hops
    exact (storeInv_applyOps hops (initialStore_inv h0)).2.1
  · intro st0 h0 fid cls calls st1 hkeys hrun r1 hr1
    rw [bookSeq_findSeat calls st0 st1 hkeys hrun] at hr1
    cases hfind : findSeat st0 fid cls with
    | none => rw [hfind] at hr1; exact Option.noConfusion hr1
    | some r0 =>
      rw [hfind, Option.map_some', Option.some.injEq] at hr1
      have hr0mem : r0 ∈ st0.seats := List.mem_of_find?_eq_some hfind
      have hinit := (h0.2.1 r0 hr0mem).1
      subst hr1
      simp only [SeatRow.setAvail]
      omega

/-- C3: with a non-zero `total_seats` and a parseable departure, the
pricing engine returns exactly
`round2 (base * class_mult * occupancy_mult * time_mult * demand_mult)`;
and at base 100, multiplier 1.0, 100 total seats with 20 left (80%
occupied), departure 12 hours after the clock and medium demand, the
price is exactly 300.00. -/
theorem C3_pricing_formula :
    (∀ (base scm : ℚ) (avail total : ℤ) (dep dl : String) (now : ℤ) (dt : DateTime),
      total ≠ 0 → strptime dep = some dt →
      calculate_dynamic_price base scm avail total dep dl now =
        some (round2 (base * scm *
          calculate_occupancy_multiplier (((total - avail : ℤ) : ℚ) / (total : ℚ)) *
          timeMultiplierOfDays (daysUntil dt now) *
          calculate_demand_multiplier dl))) ∧
    calculate_dynamic_price 100 1 20 100 "0001-01-01 12:00:00" "medium" 0 = some 300 := by
  constructor
  · intro base scm avail total dep dl now dt htotal hdep
    simp only [calculate_dynamic_price, occupancyRatio, if_neg htotal,
      calculate_time_multiplier, hdep, Option.map_some']
  · exact sample_dynamic_price

/-- C4 counterexample: the refund percentage is not a non-increasing
function of hours-to-departure — at 10 hours out it is 50 and at 100
hours out it is 100, so it increases with hours-to-departure. -/
theorem C4_counterexample_not_nonincreasing :
    strptime "0001-01-01 10:00:00" = some ⟨1, 1, 1, 10, 0, 0⟩ ∧
    strptime "0001-01-05 04:00:00" = some ⟨1, 1, 5, 4, 0, 0⟩ ∧
    hoursUntil ⟨1, 1, 1, 10, 0, 0⟩ 0 = 10 ∧
    hoursUntil ⟨1, 1, 5, 4, 0, 0⟩ 0 = 100 ∧
    calculate_refund_percentage "0001-01-01 10:00:00" 0 = 50 ∧
    calculate_refund_percentage "0001-01-05 04:00:00" 0 = 100 ∧
    ¬ (calculate_refund_percentage "0001-01-05 04:00:00" 0 ≤
       calculate_refund_percentage "0001-01-01 10:00:00" 0) := by
  refine ⟨by decide, by decide, hoursUntil_10h, hoursUntil_100h,
    refund_at_10h, refund_at_100h, ?_⟩
  rw [refund_at_10h, refund_at_100h]
  norm_num

/-- C4 (amended): the refund percentage always lies in {0, 50, 75, 100}
and follows the hours-to-departure thresholds (> 72 → 100, [24, 72) →
75, [2, 24) → 50, < 2 → 0); it is a non-DEcreasing step function of
hours-to-departure; exactly 100 hours gives 100, exactly 10 hours gives
50 and exactly 1 hour gives 0. -/
theorem C4_amended_refund_policy :
    (∀ (dep : String) (now : ℤ),
      calculate_refund_percentage dep now = 0 ∨
      calculate_refund_percentage dep now = 50 ∨
      calculate_refund_percentage dep now = 75 ∨
      calculate_refund_percentage dep now = 100) ∧
    (∀ (dep : String) (now : ℤ) (dt : DateTime), strptime dep = some dt →
      (72 < hoursUntil dt now → calculate_refund_percentage dep now = 100) ∧
      (24 ≤ hoursUntil dt now → hoursUntil dt now < 72 →
        calculate_refund_percentage dep now = 75) ∧
      (2 ≤ hoursUntil dt now → hoursUntil dt now < 24 →
        calculate_refund_percentage dep now = 50) ∧
      (hoursUntil dt now < 2 → calculate_refund_percentage dep now = 0)) ∧
    (∀ (now : ℤ) (d1 d2 : String) (t1 t2 : DateTime),
      strptime d1 = some t1 → strptime d2 = some t2 →
      hoursUntil t1 now ≤ hoursUntil t2 now →
      calculate_refund_percentage d1 now ≤ calculate_refund_percentage d2 now) ∧
    calculate_refund_percentage "0001-01-05 04:00:00" 0 = 100 ∧
    calculate_refund_percentage "0001-01-01 10:00:00" 0 = 50 ∧
    calculate_refund_percentage "0001-01-01 01:00:00" 0 = 0 := by
  refine ⟨?_, ?_, ?_, refund_at_100h, refund_at_10h, refund_at_1h⟩
  · intro dep now
    unfold calculate_refund_percentage
    cases strptime dep with
    | none => exact Or.inl rfl
    | some d =>
      simp only
      split_ifs <;> decide
  · intro dep now dt hdep
    simp only [calculate_refund_percentage, hdep]
    refine ⟨fun h1 => ?_, fun h1 h2 => ?_, fun h1 h2 => ?_, fun h1 => ?_⟩ <;>
      split_ifs <;> first | rfl | (exfalso; linarith)
  · intro now d1 d2 t1 t2 h1 h2 hle
    simp only [calculate_refund_percentage, h1, h2]
    split_ifs <;> first | (exfalso; linarith) | norm_num

/-- C8: the occupancy multiplier takes exactly the stepped values 1.5
(ratio ≥ 0.8), 1.35 (0.6 ≤ ratio < 0.8), 1.15 (0.4 ≤ ratio < 0.6) and
1.0 (ratio < 0.4), and is a non-decreasing function of the ratio. -/
theorem C8_occupancy_multiplier_steps :
    (∀ r : ℚ,
      (8 / 10 ≤ r → calculate_occupancy_multiplier r = 15 / 10) ∧
      (6 / 10 ≤ r → r < 8 / 10 → calculate_occupancy_multiplier r = 135 / 100) ∧
      (4 / 10 ≤ r → r < 6 / 10 → calculate_occupancy_multiplier r = 115 / 100) ∧
      (r < 4 / 10 → calculate_occupancy_multiplier r = 1)) ∧
    (∀ r1 r2 : ℚ, r1 ≤ r2 →
      calculate_occupancy_multiplier r1 ≤ calculate_occupancy_multiplier r2) := by
  constructor
  · intro r
    refine ⟨fun h1 => ?_, fun h1 h2 => ?_, fun h1 h2 => ?_, fun h1 => ?_⟩ <;>
      (unfold calculate_occupancy_multiplier; split_ifs <;>
        first | rfl | (exfalso; linarith))
  · intro r1 r2 hle
    unfold calculate_occupancy_multiplier
    split_ifs <;> first | (exfalso; linarith) | norm_num

/-- C9: the occupancy-ratio division fails (an error, not a silent
default) exactly when `total_seats = 0`, and then the whole pricing
call fails; when `total_seats > 0` the division is well-defined, and
with a parseable departure the pricing function returns a value. -/
theorem C9_zero_total_seats :
    (∀ a : ℤ, occupancyRatio 0 a = none) ∧
    (∀ (b s : ℚ) (a : ℤ) (dep dl : String) (now : ℤ),
      calculate_dynamic_price b s a 0 dep dl now = none) ∧
    (∀ (t a : ℤ), 0 < t → (occupancyRatio t a).isSome) ∧
    (∀ (b s : ℚ) (a t : ℤ) (dep dl : String) (now : ℤ) (dt : DateTime),
      0 < t → strptime dep = some dt →
      (calculate_dynamic_price b s a t dep dl now).isSome) := by
  refine ⟨fun a => rfl, fun b s a dep dl now => rfl, fun t a ht => ?_, ?_⟩
  · simp [occupancyRatio, ht.ne']
  · intro b s a t dep dl now dt ht hdep
    simp only [calculate_dynamic_price, occupancyRatio, if_neg ht.ne',
      calculate_time_multiplier, hdep, Option.map_some', Option.isSome_some]

/-- C10: the refund-percentage function never raises — on any departure
string that fails to parse it silently returns 0 — and cancelling a
Confirmed booking whose flight has a malformed `departure_time`
succeeds with a refund of {percentage: 0, amount: 0} instead of
surfacing an error. -/
theorem C10_refund_swallows_parse_errors :
    (∀ (s : String) (now : ℤ), strptime s = none →
      calculate_refund_percentage s now = 0) ∧
    (calculate_refund_percentage "not-a-date" 0 = 0) ∧
    (∀ (st : Store) (bid : ℕ) (now : ℤ) (ts : String) (b : Booking)
      (flight : Flight) (seat : SeatRow),
      findBooking st bid = some b → b.status ≠ "Cancelled" →
      findFlight st b.flight_id = some flight →
      strptime flight.departure_time = none →
      findSeat st b.flight_id b.seat_class = some seat →
      ∃ st', cancel_booking st bid now ts = .ok (st', ⟨bid, "Cancelled", ⟨0, 0⟩⟩)) := by
  have hzero : ∀ (s : String) (now : ℤ), strptime s = none →
      calculate_refund_percentage s now = 0 := by
    intro s now hparse
    simp only [calculate_refund_percentage, hparse]
  refine ⟨hzero, hzero "not-a-date" 0 (by decide), ?_⟩
  intro st bid now ts b flight seat hb hstat hf hparse hs
  have hp0 : calculate_refund_percentage flight.departure_time now = 0 :=
    hzero flight.departure_time now hparse
  have hz : b.final_price * (((0 : ℤ) : ℚ)) / 100 = ((0 : ℤ) : ℚ) := by
    push_cast
    ring
  have hr0 : round2 (b.final_price * ((0 : ℤ) : ℚ) / 100) = 0 := by
    rw [hz, round2_intCast, Int.cast_zero]
  refine ⟨cancelledStore st bid ts b
      (if seat.available_seats + b.seats_booked > seat.initial_inventory
       then seat.initial_inventory else seat.available_seats + b.seats_booked) 0, ?_⟩
  simp only [cancel_booking, hb, if_neg hstat, hf, hs, hp0, hr0, gt_iff_lt,
    lt_self_iff_false, if_false]
  rfl

end FlightBooking
